import Mathlib

/-!
Shallow embedding of the investment-tracker repository (a yew front end and
an actix HTTP API), restricted to the parts the specification's claims are
about: the form validation and message-handling logic of
`yew-web/src/components/create_inv_form.rs` and
`yew-web/src/components/renew_inv_form.rs`, and the five HTTP handlers of
`actix-surrealdb-api/src/api.rs`.

Rust `HashMap<String, String>` (the forms' `error_messages`) is modelled as
an association list whose `insert` and `remove` mirror the map semantics;
`chrono` date parsing is modelled explicitly; fallible operations return
`Option`/`Except`.
-/

/-! ## Dates (model of the chrono types used by the forms) -/

/-- Model of chrono `NaiveDate`: a proleptic Gregorian calendar date.
Validity (month and day ranges) is enforced by the smart constructor
`fromYMD` below, mirroring chrono's constructors. -/
structure NaiveDate where
  year : Int
  month : Nat
  day : Nat
deriving DecidableEq, Repr

/-- Model of chrono `NaiveDateTime`: a date with a time of day. -/
structure NaiveDateTime where
  date : NaiveDate
  hour : Nat
  minute : Nat
  second : Nat
deriving DecidableEq, Repr

/-- Model of chrono `DateTime<Utc>`: a naive datetime tagged UTC. -/
structure DateTimeUtc where
  naive : NaiveDateTime
deriving DecidableEq, Repr

/-- Leap-year rule of the proleptic Gregorian calendar, as used by chrono. -/
def isLeapYear (y : Int) : Bool :=
  (y % 4 == 0 && y % 100 != 0) || y % 400 == 0

/-- Number of days of month `m` (1-based) in year `y`; 0 for an invalid
month number. -/
def daysInMonth (y : Int) (m : Nat) : Nat :=
  match m with
  | 1 => 31
  | 2 => if isLeapYear y then 29 else 28
  | 3 => 31
  | 4 => 30
  | 5 => 31
  | 6 => 30
  | 7 => 31
  | 8 => 31
  | 9 => 30
  | 10 => 31
  | 11 => 30
  | 12 => 31
  | _ => 0

/-- Model of chrono date construction from year, month, day: succeeds
exactly on valid calendar dates (chrono's year-range bound is unreachable
here because the parser below only produces years of at most four digits). -/
def fromYMD (y : Int) (m d : Nat) : Option NaiveDate :=
  if 1 ≤ m ∧ m ≤ 12 ∧ 1 ≤ d ∧ d ≤ daysInMonth y m then some ⟨y, m, d⟩ else none

/-- Take at most `w` leading decimal digits from a character list,
returning them and the rest of the list. -/
def takeDigits : Nat → List Char → List Char × List Char
  | 0, l => ([], l)
  | _ + 1, [] => ([], [])
  | w + 1, c :: rest =>
      if c.isDigit then
        let (ds, r) := takeDigits w rest
        (c :: ds, r)
      else ([], c :: rest)

/-- Numeric value of a list of decimal digits. -/
def digitsToNat (ds : List Char) : Nat :=
  ds.foldl (fun n c => 10 * n + (c.toNat - 48)) 0

/-- Model of chrono numeric-field scanning: read at least one and at most
`w` decimal digits. -/
def parseNum (w : Nat) (l : List Char) : Option (Nat × List Char) :=
  let (ds, r) := takeDigits w l
  if ds = [] then none else some (digitsToNat ds, r)

/-- Consume one literal dash. -/
def expectDash : List Char → Option (List Char)
  | '-' :: r => some r
  | _ => none

/-- Split an optional leading sign off a character list (the year field of
the format string is signed in chrono). -/
def signSplit : List Char → Int × List Char
  | '-' :: rest => (-1, rest)
  | '+' :: rest => (1, rest)
  | l => (1, l)

/-- Model of the chrono library call
`NaiveDate::parse_from_str(input, "%Y-%m-%d")` as used by
`CreateInvForm::date_field` and `RenewInvForm::date_field`: an optionally
signed year of at most four digits, a dash, a month of at most two digits,
a dash, a day of at most two digits, with the whole string consumed, and
the triple must form a valid calendar date. -/
def parse_from_str (s : String) : Option NaiveDate := do
  let (sign, l0) := signSplit s.data
  let (y, l1) ← parseNum 4 l0
  let l2 ← expectDash l1
  let (m, l3) ← parseNum 2 l2
  let l4 ← expectDash l3
  let (d, l5) ← parseNum 2 l4
  if l5 = [] then fromYMD (sign * (y : Int)) m d else none

/-- Model of chrono `NaiveDate::and_hms_opt`: attach a time of day,
failing on an out-of-range time. -/
def and_hms_opt (d : NaiveDate) (h m s : Nat) : Option NaiveDateTime :=
  if h ≤ 23 ∧ m ≤ 59 ∧ s ≤ 59 then some ⟨d, h, m, s⟩ else none

/-- Model of chrono `Utc.from_utc_datetime`: tag a naive datetime as UTC. -/
def from_utc_datetime (dt : NaiveDateTime) : DateTimeUtc := ⟨dt⟩

/-- The date computed by the `on_input` closure of
`CreateInvForm::date_field` (create_inv_form.rs lines 187-196) and
`RenewInvForm::date_field` (renew_inv_form.rs lines 206-215): parse the
input as `%Y-%m-%d`, attach midnight, tag UTC, flattening the nested
fallible results. -/
def dateFieldDate (s : String) : Option DateTimeUtc :=
  ((parse_from_str s).map
    (fun date => (and_hms_opt date 0 0 0).map (fun dt => from_utc_datetime dt))).join

/-! ## The Investment record -/

/-- Modelled from the spec: the `types` crate declaring `Investment` is not
under src/; field names follow their use sites in the form components and
field types follow spec section 3 (labels and kinds are strings, the three
amounts are non-negative integers, the dates and bookkeeping timestamps are
optional). -/
structure Investment where
  id : Option String
  inv_name : String
  name : String
  inv_type : String
  return_type : String
  inv_amount : Nat
  return_amount : Nat
  return_rate : Nat
  start_date : Option DateTimeUtc
  end_date : Option DateTimeUtc
  created_at : Option DateTimeUtc
  updated_at : Option DateTimeUtc
deriving DecidableEq, Repr

/-- Modelled from the spec: the `types` crate declaring `Investment2` (the
update/renew patch type) is not under src/; per spec section 3 it has the
same fields as the record, with the identifier mandatory. -/
structure Investment2 where
  id : String
  inv_name : String
  name : String
  inv_type : String
  return_type : String
  inv_amount : Nat
  return_amount : Nat
  return_rate : Nat
  start_date : Option DateTimeUtc
  end_date : Option DateTimeUtc
deriving DecidableEq, Repr

/-- Modelled from the spec: the `types` crate declaring `AffectedRows` is
not under src/; per spec section 3 it is a count of removed records. -/
structure AffectedRows where
  rows_affected : Nat
deriving DecidableEq, Repr

/-! ## The error-message map

Models the forms' `error_messages: HashMap<String, String>` as an
association list; `insertMsg` and `eraseKey` mirror `HashMap::insert` and
`HashMap::remove` up to lookup. -/

abbrev ErrorMap : Type := List (String × String)

/-- Model of `HashMap::remove`. -/
def eraseKey (k : String) (m : ErrorMap) : ErrorMap :=
  m.filter (fun p => p.1 != k)

/-- Model of `HashMap::insert` (replaces any existing entry at the key). -/
def insertMsg (k v : String) (m : ErrorMap) : ErrorMap :=
  (k, v) :: eraseKey k m

/-- Model of `HashMap::get`. -/
def lookupMsg (m : ErrorMap) (k : String) : Option String :=
  (m.find? (fun p => p.1 == k)).map (fun p => p.2)

/-! ## Form validation

`CreateInvForm::validate_form` (create_inv_form.rs lines 202-277) and
`RenewInvForm::validate_form` (renew_inv_form.rs lines 221-296) each run a
fixed sequence of nine independent checks; a failing check records a
field-keyed message and clears the validity flag. `vstep` captures that
repeated statement shape. -/

/-- One validation statement of `validate_form`: if the condition holds,
record the message under the key and clear the validity flag, otherwise
leave the accumulator unchanged. -/
def vstep (c : Prop) [Decidable c] (key msg : String) (r : Bool × ErrorMap) :
    Bool × ErrorMap :=
  if c then (false, insertMsg key msg r.2) else r

/-- Embedding of `CreateInvForm::validate_form`, explicit in the error-map
state (`self.base.error_messages` before the call). -/
def createValidateForm (inv : Investment) (em : ErrorMap) : Bool × ErrorMap :=
  let r := (true, em)
  let r := vstep (inv.inv_name = "") "inv-name" "Investment Name can not be blank" r
  let r := vstep (inv.name = "") "name" "Name can not be blank" r
  let r := vstep (inv.inv_type = "") "inv-type" "Investment Type can not be blank" r
  let r := vstep (inv.return_type = "") "return-type" "Return Type can not be blank" r
  let r := vstep (inv.inv_amount = 0) "inv-amount" "Investment Amount can not be blank" r
  let r := vstep (inv.return_amount = 0) "return-amount" "Return Amount can not be blank" r
  let r := vstep (inv.return_rate = 0) "return-rate" "Return Rate can not be blank" r
  let r := vstep (inv.start_date = none) "start-date" "Start Date can not be blank" r
  let r := vstep (inv.end_date = none) "end-date" "End Date can not be blank" r
  r

/-- Embedding of `RenewInvForm::validate_form`, explicit in the error-map
state; the record validated is `self.props.investment`. -/
def renewValidateForm (inv : Investment) (em : ErrorMap) : Bool × ErrorMap :=
  let r := (true, em)
  let r := vstep (inv.inv_name = "") "inv-name" "Investment Name can not be blank" r
  let r := vstep (inv.name = "") "name" "Name can not be blank" r
  let r := vstep (inv.inv_type = "") "inv-type" "Investment Type can not be blank" r
  let r := vstep (inv.return_type = "") "return-type" "Return Type can not be blank" r
  let r := vstep (inv.inv_amount = 0) "inv-amount" "Investment Amount can not be blank" r
  let r := vstep (inv.return_amount = 0) "return-amount" "Return Amount can not be blank" r
  let r := vstep (inv.return_rate = 0) "return-rate" "Return Rate can not be blank" r
  let r := vstep (inv.start_date = none) "start-date" "Start Date can not be blank" r
  let r := vstep (inv.end_date = none) "end-date" "End Date can not be blank" r
  r

/-! ## Numeric input parsing

The numeric fields are stored through `value.parse().unwrap_or(0)`
(create_inv_form.rs lines 80, 84, 88; renew_inv_form.rs lines 71, 74, 77). -/

/-- Numeric value of a non-empty all-digit character list, `none` otherwise. -/
def parseDigitsAll (l : List Char) : Option Nat :=
  if l ≠ [] ∧ l.all (fun c => c.isDigit) then some (digitsToNat l) else none

/-- Modelled from the spec: the amount fields are declared in the `types`
crate (not under src/) as non-negative integers (spec section 3), so
`value.parse()` is Rust unsigned-integer parsing: an optional leading plus
sign followed by one or more decimal digits. -/
def parseNonNegInt (s : String) : Option Nat :=
  match s.data with
  | '+' :: rest => parseDigitsAll rest
  | l => parseDigitsAll l

/-- The value stored for a numeric field: `value.parse().unwrap_or(0)`. -/
def storedNumericValue (s : String) : Nat :=
  (parseNonNegInt s).getD 0

/-! ## Saving and resetting the forms -/

/-- Embedding of `CreateInvForm::save_form` (create_inv_form.rs lines
279-290): validate, and emit the `create_investment` callback with the
current record exactly when validation passed. The emitted records are
returned as a list. -/
def createSaveForm (inv : Investment) (em : ErrorMap) :
    Bool × ErrorMap × List Investment :=
  let (is_valid, em) := createValidateForm inv em
  if is_valid then (true, em, [inv]) else (false, em, [])

/-- Embedding of `RenewInvForm::save_form` (renew_inv_form.rs lines
298-311): validate, and emit the `edit_investment` callback with
`self.props.investment` exactly when validation passed. -/
def renewSaveForm (inv : Investment) (em : ErrorMap) :
    Bool × ErrorMap × List Investment :=
  let (is_valid, em) := renewValidateForm inv em
  if is_valid then (true, em, [inv]) else (false, em, [])

/-- Embedding of `CreateInvForm::reset_form` (create_inv_form.rs lines
292-302): blank the nine editable fields, leaving id and the bookkeeping
timestamps alone. -/
def resetState (inv : Investment) : Investment :=
  { inv with
    inv_name := "", name := "", inv_type := "", return_type := "",
    inv_amount := 0, return_amount := 0, return_rate := 0,
    start_date := none, end_date := none }

/-! ## The form update loops -/

/-- The message type of `CreateInvForm` (create_inv_form.rs lines 24-29). -/
inductive CreateMsg where
  | saveAndValidate (field value : String)
  | saveAndValidateDate (field : String) (date : Option DateTimeUtc)
  | resetForm
  | saveForm

/-- The component state of `CreateInvForm` that the claims concern:
`self.state` and `self.base.error_messages`. -/
structure CreateFormState where
  state : Investment
  error_messages : ErrorMap
deriving DecidableEq

/-- Embedding of `CreateInvForm::update` (create_inv_form.rs lines 60-114);
records emitted through the `create_investment` callback are returned
alongside the new state. -/
def createUpdate (msg : CreateMsg) (s : CreateFormState) :
    CreateFormState × List Investment :=
  match msg with
  | .saveAndValidate field value =>
      match field with
      | "inv-name" =>
          ({ state := { s.state with inv_name := value },
             error_messages := eraseKey "inv-name" s.error_messages }, [])
      | "name" =>
          ({ state := { s.state with name := value },
             error_messages := eraseKey "name" s.error_messages }, [])
      | "inv-type" =>
          ({ state := { s.state with inv_type := value },
             error_messages := eraseKey "inv-type" s.error_messages }, [])
      | "return-type" =>
          ({ state := { s.state with return_type := value },
             error_messages := eraseKey "return-type" s.error_messages }, [])
      | "inv-amount" =>
          ({ state := { s.state with inv_amount := storedNumericValue value },
             error_messages := eraseKey "inv-amount" s.error_messages }, [])
      | "return-amount" =>
          ({ state := { s.state with return_amount := storedNumericValue value },
             error_messages := eraseKey "return-amount" s.error_messages }, [])
      | "return-rate" =>
          ({ state := { s.state with return_rate := storedNumericValue value },
             error_messages := eraseKey "return-rate" s.error_messages }, [])
      | _ => (s, [])
  | .saveAndValidateDate field date =>
      match field with
      | "start-date" =>
          ({ state := { s.state with start_date := date },
             error_messages := eraseKey "start-date" s.error_messages }, [])
      | "end-date" =>
          ({ state := { s.state with end_date := date },
             error_messages := eraseKey "end-date" s.error_messages }, [])
      | _ => (s, [])
  | .resetForm => ({ s with state := resetState s.state }, [])
  | .saveForm =>
      let (ok, em, emitted) := createSaveForm s.state s.error_messages
      if ok then ({ state := resetState s.state, error_messages := em }, emitted)
      else ({ state := s.state, error_messages := em }, emitted)

/-- The message type of `RenewInvForm` (renew_inv_form.rs lines 27-33). -/
inductive RenewMsg where
  | validateAndSave (field value : String)
  | validateDateAndSave (field : String) (date : Option DateTimeUtc)
  | confirmRenewForm
  | cancelRenewForm
  | renewForm

/-- The component state of `RenewInvForm` that the claims concern:
`self.form_changed`, `self.show_renew_confirmation`,
`self.props.investment` and `self.base.error_messages`. -/
structure RenewFormState where
  form_changed : Bool
  show_renew_confirmation : Bool
  investment : Investment
  error_messages : ErrorMap
deriving DecidableEq

/-- Embedding of `RenewInvForm::update` (renew_inv_form.rs lines 54-110);
the two emission channels (`edit_investment` records and `on_renew` unit
signals) are returned alongside the new state. -/
def renewUpdate (msg : RenewMsg) (s : RenewFormState) :
    RenewFormState × List Investment × List Unit :=
  match msg with
  | .validateAndSave field value =>
      let inv :=
        match field with
        | "inv-name" => { s.investment with inv_name := value }
        | "name" => { s.investment with name := value }
        | "inv-type" => { s.investment with inv_type := value }
        | "return-type" => { s.investment with return_type := value }
        | "inv-amount" => { s.investment with inv_amount := storedNumericValue value }
        | "return-amount" => { s.investment with return_amount := storedNumericValue value }
        | "return-rate" => { s.investment with return_rate := storedNumericValue value }
        | _ => s.investment
      ({ s with
          investment := inv,
          error_messages := eraseKey field s.error_messages,
          form_changed := true }, [], [])
  | .validateDateAndSave field date =>
      let inv :=
        match field with
        | "start-date" => { s.investment with start_date := date }
        | "end-date" => { s.investment with end_date := date }
        | _ => s.investment
      ({ s with
          investment := inv,
          error_messages := eraseKey field s.error_messages,
          form_changed := true }, [], [])
  | .confirmRenewForm =>
      let (ok, em, emitted) := renewSaveForm s.investment s.error_messages
      ({ s with error_messages := em }, emitted, if ok then [()] else [])
  | .cancelRenewForm => ({ s with show_renew_confirmation := false }, [], [])
  | .renewForm => ({ s with show_renew_confirmation := true }, [], [])

/-! ## The return-type choice sets of the two forms -/

/-- The option values of the return-type select in `CreateInvForm::view`
(create_inv_form.rs lines 131-138). -/
def createReturnTypeOptions : List String := ["Ordinary", "Culmulative"]

/-- The option values of the return-type select in `RenewInvForm::view`
(renew_inv_form.rs lines 129-136). -/
def renewReturnTypeOptions : List String := ["Ordinary", "Culmulative"]

/-! ## The API surface

Embedding of `actix-surrealdb-api/src/api.rs`. Each handler is
parameterized by the adapter function it calls (`add_inv`, `get_inv`,
`update_inv`, `delete_inv`, `get_all_invs` live in db.rs, which is not part
of the files under verification); Rust `Result` with the `?` operator is
`Except` with monadic bind. -/

/-- Model of `actix_web::web::Json`: a value serialized as a 200 JSON body. -/
structure Json (α : Type) where
  val : α
deriving DecidableEq

/-- HTTP method of a route attribute. -/
inductive HttpMethod where
  | post
  | get
  | patch
  | delete
deriving DecidableEq, Repr

/-- Shape of a request body, per the handler argument types. -/
inductive BodyShape where
  | investmentRecord
  | investmentPatch
  | empty
deriving DecidableEq, Repr

/-- Shape of a success response body, per the handler return types. -/
inductive RespShape where
  | investmentRecord
  | affectedRows
  | investmentList
deriving DecidableEq, Repr

/-- One HTTP route of the API surface. -/
structure Route where
  method : HttpMethod
  path : String
  body : BodyShape
  response : RespShape
deriving DecidableEq, Repr

namespace Api

/-- Embedding of the `create` handler (api.rs lines 15-25): one `add_inv`
adapter call, its result propagated by the `?` operator, the success value
returned as a 200 JSON body. -/
def create {ε : Type} (add_inv : Investment → Except ε Investment)
    (inv : Investment) : Except ε (Json Investment) := do
  let todo ← add_inv inv
  return Json.mk todo

/-- Embedding of the `get` handler (api.rs lines 27-32). -/
def get {ε : Type} (get_inv : String → Except ε Investment)
    (id : String) : Except ε (Json Investment) := do
  let task ← get_inv id
  return Json.mk task

/-- Embedding of the `update` handler (api.rs lines 34-41). -/
def update {ε : Type} (update_inv : Investment2 → Except ε Investment)
    (inv : Investment2) : Except ε (Json Investment) := do
  let updated ← update_inv inv
  return Json.mk updated

/-- Embedding of the `delete` handler (api.rs lines 43-48). -/
def delete {ε : Type} (delete_inv : String → Except ε AffectedRows)
    (id : String) : Except ε (Json AffectedRows) := do
  let deleted ← delete_inv id
  return Json.mk deleted

/-- Embedding of the `list` handler (api.rs lines 50-55). -/
def list {ε : Type} (get_all_invs : Unit → Except ε (List Investment)) :
    Except ε (Json (List Investment)) := do
  let todos ← get_all_invs ()
  return Json.mk todos

end Api

/-- The route table transcribed from the actix attribute macros and handler
signatures of api.rs: `#[post("/inv")]` on `create`, `#[get("/inv/{id}")]`
on `get`, `#[patch("/inv")]` on `update`, `#[delete("/inv/{id}")]` on
`delete`, `#[get("/invs")]` on `list`. -/
def apiRoutes : List Route :=
  [ ⟨.post, "/inv", .investmentRecord, .investmentRecord⟩,
    ⟨.get, "/inv/{id}", .empty, .investmentRecord⟩,
    ⟨.patch, "/inv", .investmentPatch, .investmentRecord⟩,
    ⟨.delete, "/inv/{id}", .empty, .affectedRows⟩,
    ⟨.get, "/invs", .empty, .investmentList⟩ ]

/-- The five intents as the spec words them (section 4.2 table): create as
POST /inv taking a full record and returning a record, read as GET
/inv/{id} returning a record, update as PATCH /inv taking a patch and
returning a record, delete as DELETE /inv/{id} returning an AffectedRows
count, list as GET /invs returning a sequence of records. -/
def specApiTable : List Route :=
  [ ⟨.post, "/inv", .investmentRecord, .investmentRecord⟩,
    ⟨.get, "/inv/{id}", .empty, .investmentRecord⟩,
    ⟨.patch, "/inv", .investmentPatch, .investmentRecord⟩,
    ⟨.delete, "/inv/{id}", .empty, .affectedRows⟩,
    ⟨.get, "/invs", .empty, .investmentList⟩ ]

/-! ## Sample records used to instantiate the theorems -/

/-- The record `CreateInvForm::create` starts from: every field blank. -/
def blankInvestment : Investment :=
  { id := none, inv_name := "", name := "", inv_type := "", return_type := "",
    inv_amount := 0, return_amount := 0, return_rate := 0,
    start_date := none, end_date := none, created_at := none, updated_at := none }

/-- A fully-populated record whose start date (2025-06-01) is later than
its end date (2020-01-01) and whose amounts are far beyond any plausible
bound. -/
def reversedDatesInvestment : Investment :=
  { id := none, inv_name := "Car Fund", name := "Alice", inv_type := "FD",
    return_type := "Ordinary",
    inv_amount := 1000000000000000000000000,
    return_amount := 1100000000000000000000000,
    return_rate := 10,
    start_date := some ⟨⟨⟨2025, 6, 1⟩, 0, 0, 0⟩⟩,
    end_date := some ⟨⟨⟨2020, 1, 1⟩, 0, 0, 0⟩⟩,
    created_at := none, updated_at := none }

/-! ## Helper lemmas about the map and validation-step models -/

theorem lookupMsg_cons (x : String × String) (m : ErrorMap) (k : String) :
    lookupMsg (x :: m) k = if x.1 = k then some x.2 else lookupMsg m k := by
  by_cases h : x.1 = k <;> simp [lookupMsg, List.find?_cons, h]

theorem eraseKey_cons (k : String) (x : String × String) (m : ErrorMap) :
    eraseKey k (x :: m) = if x.1 = k then eraseKey k m else x :: eraseKey k m := by
  by_cases h : x.1 = k <;> simp [eraseKey, List.filter_cons, h]

theorem lookupMsg_eraseKey (k k' : String) (m : ErrorMap) :
    lookupMsg (eraseKey k m) k' = if k' = k then none else lookupMsg m k' := by
  induction m with
  | nil => by_cases hk : k' = k <;> simp [eraseKey, lookupMsg, hk]
  | cons x t ih =>
      rw [eraseKey_cons]
      by_cases hx : x.1 = k
      · rw [if_pos hx, ih, lookupMsg_cons]
        by_cases hk : k' = k
        · simp [hk]
        · have hxk' : x.1 ≠ k' := by
            rw [hx]; exact fun h => hk h.symm
          simp [hxk', hk]
      · rw [if_neg hx, lookupMsg_cons, lookupMsg_cons, ih]
        by_cases hxk' : x.1 = k'
        · have hk : ¬k' = k := by
            intro h; exact hx (hxk'.trans h)
          simp [hxk', hk]
        · simp [hxk']

theorem lookupMsg_insertMsg (k k' v : String) (m : ErrorMap) :
    lookupMsg (insertMsg k v m) k' = if k' = k then some v else lookupMsg m k' := by
  rw [insertMsg, lookupMsg_cons, lookupMsg_eraseKey]
  by_cases hk : k' = k
  · simp [hk]
  · have hk2 : k ≠ k' := fun h => hk h.symm
    simp [hk2, hk]

theorem vstep_fst (c : Prop) [Decidable c] (key msg : String) (r : Bool × ErrorMap) :
    (vstep c key msg r).1 = true ↔ ¬c ∧ r.1 = true := by
  by_cases h : c <;> simp [vstep, h]

theorem lookupMsg_vstep (c : Prop) [Decidable c] (key msg k : String)
    (r : Bool × ErrorMap) :
    lookupMsg (vstep c key msg r).2 k =
      if c ∧ k = key then some msg else lookupMsg r.2 k := by
  by_cases h : c <;> by_cases hk : k = key <;>
    simp [vstep, h, hk, lookupMsg_insertMsg]


/-! ## The claims -/

/-- C1: the form validation predicate accepts a record if and only if the
four string fields are non-empty, the three numeric fields are non-zero and
both dates are present; and, in one pass, it records the field-keyed error
message for every violated field (leaving the other keys of the message map
untouched). Stated for both `CreateInvForm::validate_form` and
`RenewInvForm::validate_form`. -/
theorem claim_C1 (inv : Investment) (em : ErrorMap) :
    (((createValidateForm inv em).1 = true ↔
       (inv.inv_name ≠ "" ∧ inv.name ≠ "" ∧ inv.inv_type ≠ "" ∧
        inv.return_type ≠ "" ∧ inv.inv_amount ≠ 0 ∧ inv.return_amount ≠ 0 ∧
        inv.return_rate ≠ 0 ∧ inv.start_date ≠ none ∧ inv.end_date ≠ none))
     ∧ (lookupMsg (createValidateForm inv em).2 "inv-name" =
          if inv.inv_name = "" then some "Investment Name can not be blank"
          else lookupMsg em "inv-name")
     ∧ (lookupMsg (createValidateForm inv em).2 "name" =
          if inv.name = "" then some "Name can not be blank"
          else lookupMsg em "name")
     ∧ (lookupMsg (createValidateForm inv em).2 "inv-type" =
          if inv.inv_type = "" then some "Investment Type can not be blank"
          else lookupMsg em "inv-type")
     ∧ (lookupMsg (createValidateForm inv em).2 "return-type" =
          if inv.return_type = "" then some "Return Type can not be blank"
          else lookupMsg em "return-type")
     ∧ (lookupMsg (createValidateForm inv em).2 "inv-amount" =
          if inv.inv_amount = 0 then some "Investment Amount can not be blank"
          else lookupMsg em "inv-amount")
     ∧ (lookupMsg (createValidateForm inv em).2 "return-amount" =
          if inv.return_amount = 0 then some "Return Amount can not be blank"
          else lookupMsg em "return-amount")
     ∧ (lookupMsg (createValidateForm inv em).2 "return-rate" =
          if inv.return_rate = 0 then some "Return Rate can not be blank"
          else lookupMsg em "return-rate")
     ∧ (lookupMsg (createValidateForm inv em).2 "start-date" =
          if inv.start_date = none then some "Start Date can not be blank"
          else lookupMsg em "start-date")
     ∧ (lookupMsg (createValidateForm inv em).2 "end-date" =
          if inv.end_date = none then some "End Date can not be blank"
          else lookupMsg em "end-date"))
    ∧
    (((renewValidateForm inv em).1 = true ↔
       (inv.inv_name ≠ "" ∧ inv.name ≠ "" ∧ inv.inv_type ≠ "" ∧
        inv.return_type ≠ "" ∧ inv.inv_amount ≠ 0 ∧ inv.return_amount ≠ 0 ∧
        inv.return_rate ≠ 0 ∧ inv.start_date ≠ none ∧ inv.end_date ≠ none))
     ∧ (lookupMsg (renewValidateForm inv em).2 "inv-name" =
          if inv.inv_name = "" then some "Investment Name can not be blank"
          else lookupMsg em "inv-name")
     ∧ (lookupMsg (renewValidateForm inv em).2 "name" =
          if inv.name = "" then some "Name can not be blank"
          else lookupMsg em "name")
     ∧ (lookupMsg (renewValidateForm inv em).2 "inv-type" =
          if inv.inv_type = "" then some "Investment Type can not be blank"
          else lookupMsg em "inv-type")
     ∧ (lookupMsg (renewValidateForm inv em).2 "return-type" =
          if inv.return_type = "" then some "Return Type can not be blank"
          else lookupMsg em "return-type")
     ∧ (lookupMsg (renewValidateForm inv em).2 "inv-amount" =
          if inv.inv_amount = 0 then some "Investment Amount can not be blank"
          else lookupMsg em "inv-amount")
     ∧ (lookupMsg (renewValidateForm inv em).2 "return-amount" =
          if inv.return_amount = 0 then some "Return Amount can not be blank"
          else lookupMsg em "return-amount")
     ∧ (lookupMsg (renewValidateForm inv em).2 "return-rate" =
          if inv.return_rate = 0 then some "Return Rate can not be blank"
          else lookupMsg em "return-rate")
     ∧ (lookupMsg (renewValidateForm inv em).2 "start-date" =
          if inv.start_date = none then some "Start Date can not be blank"
          else lookupMsg em "start-date")
     ∧ (lookupMsg (renewValidateForm inv em).2 "end-date" =
          if inv.end_date = none then some "End Date can not be blank"
          else lookupMsg em "end-date")) := by
  constructor <;>
    refine ⟨?_, ?_, ?_, ?_, ?_, ?_, ?_, ?_, ?_, ?_⟩ <;>
    first
      | (simp only [createValidateForm, renewValidateForm, vstep_fst,
          Prod.fst, and_true]
         tauto)
      | simp [createValidateForm, renewValidateForm, lookupMsg_vstep]

/-- C5: the create form's validation routine and the renew form's
validation routine compute the same function: the same verdict and the
same error-message map on every record and prior message map. -/
theorem claim_C5 (inv : Investment) (em : ErrorMap) :
    createValidateForm inv em = renewValidateForm inv em := rfl

/-- C6: a record whose four string fields are non-empty, whose three
numeric fields are non-zero and whose two dates are present is accepted by
both validation routines, with no constraint relating the two dates and no
upper bound on the numeric fields. -/
theorem claim_C6 (inv : Investment) (em : ErrorMap)
    (h1 : inv.inv_name ≠ "") (h2 : inv.name ≠ "") (h3 : inv.inv_type ≠ "")
    (h4 : inv.return_type ≠ "") (h5 : inv.inv_amount ≠ 0)
    (h6 : inv.return_amount ≠ 0) (h7 : inv.return_rate ≠ 0)
    (h8 : inv.start_date ≠ none) (h9 : inv.end_date ≠ none) :
    (createValidateForm inv em).1 = true ∧ (renewValidateForm inv em).1 = true := by
  constructor <;>
    simp [createValidateForm, renewValidateForm, vstep,
      h1, h2, h3, h4, h5, h6, h7, h9, h8]

/-- Witness for C6: `reversedDatesInvestment` has its start date after its
end date and astronomically large amounts, and both validators accept it. -/
theorem claim_C6_witness :
    (createValidateForm reversedDatesInvestment []).1 = true ∧
    (renewValidateForm reversedDatesInvestment []).1 = true :=
  claim_C6 reversedDatesInvestment [] (by decide) (by decide) (by decide)
    (by decide) (by decide) (by decide) (by decide) (by decide) (by decide)

/-- C3: `save_form` emits the submit callback (`create_investment` for the
create form, `edit_investment` for the renew form) with the candidate
record exactly when `validate_form` returns true; on a validation failure
nothing is emitted. -/
theorem claim_C3 (inv : Investment) (em : ErrorMap) :
    ((createSaveForm inv em).2.2 =
       if (createValidateForm inv em).1 = true then [inv] else [])
    ∧ ((createSaveForm inv em).2.2 ≠ [] ↔ (createValidateForm inv em).1 = true)
    ∧ ((renewSaveForm inv em).2.2 =
       if (renewValidateForm inv em).1 = true then [inv] else [])
    ∧ ((renewSaveForm inv em).2.2 ≠ [] ↔ (renewValidateForm inv em).1 = true) := by
  rcases hc : createValidateForm inv em with ⟨b, m⟩
  rcases hr : renewValidateForm inv em with ⟨b2, m2⟩
  cases b <;> cases b2 <;>
    simp [createSaveForm, renewSaveForm, hc, hr]

/-- C7: handling a single-field edit message updates exactly that field of
the record and removes exactly that field's entry from the error-message
map, leaving every other record field (the equalities below change only the
named field) and every other key of the map (last conjunct) unchanged,
without re-running validation; stated for all nine named fields of both
forms (the renew form additionally raises its form-changed flag). -/
theorem claim_C7 (v : String) (d : Option DateTimeUtc)
    (s : CreateFormState) (t : RenewFormState) (f k : String) (em : ErrorMap) :
    (createUpdate (.saveAndValidate "inv-name" v) s =
      ({ state := { s.state with inv_name := v },
         error_messages := eraseKey "inv-name" s.error_messages }, []))
    ∧ (createUpdate (.saveAndValidate "name" v) s =
      ({ state := { s.state with name := v },
         error_messages := eraseKey "name" s.error_messages }, []))
    ∧ (createUpdate (.saveAndValidate "inv-type" v) s =
      ({ state := { s.state with inv_type := v },
         error_messages := eraseKey "inv-type" s.error_messages }, []))
    ∧ (createUpdate (.saveAndValidate "return-type" v) s =
      ({ state := { s.state with return_type := v },
         error_messages := eraseKey "return-type" s.error_messages }, []))
    ∧ (createUpdate (.saveAndValidate "inv-amount" v) s =
      ({ state := { s.state with inv_amount := storedNumericValue v },
         error_messages := eraseKey "inv-amount" s.error_messages }, []))
    ∧ (createUpdate (.saveAndValidate "return-amount" v) s =
      ({ state := { s.state with return_amount := storedNumericValue v },
         error_messages := eraseKey "return-amount" s.error_messages }, []))
    ∧ (createUpdate (.saveAndValidate "return-rate" v) s =
      ({ state := { s.state with return_rate := storedNumericValue v },
         error_messages := eraseKey "return-rate" s.error_messages }, []))
    ∧ (createUpdate (.saveAndValidateDate "start-date" d) s =
      ({ state := { s.state with start_date := d },
         error_messages := eraseKey "start-date" s.error_messages }, []))
    ∧ (createUpdate (.saveAndValidateDate "end-date" d) s =
      ({ state := { s.state with end_date := d },
         error_messages := eraseKey "end-date" s.error_messages }, []))
    ∧ (renewUpdate (.validateAndSave "inv-name" v) t =
      ({ t with
          investment := { t.investment with inv_name := v },
          error_messages := eraseKey "inv-name" t.error_messages,
          form_changed := true }, [], []))
    ∧ (renewUpdate (.validateAndSave "name" v) t =
      ({ t with
          investment := { t.investment with name := v },
          error_messages := eraseKey "name" t.error_messages,
          form_changed := true }, [], []))
    ∧ (renewUpdate (.validateAndSave "inv-type" v) t =
      ({ t with
          investment := { t.investment with inv_type := v },
          error_messages := eraseKey "inv-type" t.error_messages,
          form_changed := true }, [], []))
    ∧ (renewUpdate (.validateAndSave "return-type" v) t =
      ({ t with
          investment := { t.investment with return_type := v },
          error_messages := eraseKey "return-type" t.error_messages,
          form_changed := true }, [], []))
    ∧ (renewUpdate (.validateAndSave "inv-amount" v) t =
      ({ t with
          investment := { t.investment with inv_amount := storedNumericValue v },
          error_messages := eraseKey "inv-amount" t.error_messages,
          form_changed := true }, [], []))
    ∧ (renewUpdate (.validateAndSave "return-amount" v) t =
      ({ t with
          investment := { t.investment with return_amount := storedNumericValue v },
          error_messages := eraseKey "return-amount" t.error_messages,
          form_changed := true }, [], []))
    ∧ (renewUpdate (.validateAndSave "return-rate" v) t =
      ({ t with
          investment := { t.investment with return_rate := storedNumericValue v },
          error_messages := eraseKey "return-rate" t.error_messages,
          form_changed := true }, [], []))
    ∧ (renewUpdate (.validateDateAndSave "start-date" d) t =
      ({ t with
          investment := { t.investment with start_date := d },
          error_messages := eraseKey "start-date" t.error_messages,
          form_changed := true }, [], []))
    ∧ (renewUpdate (.validateDateAndSave "end-date" d) t =
      ({ t with
          investment := { t.investment with end_date := d },
          error_messages := eraseKey "end-date" t.error_messages,
          form_changed := true }, [], []))
    ∧ (lookupMsg (eraseKey f em) k = if k = f then none else lookupMsg em k) := by
  refine ⟨?_, ?_, ?_, ?_, ?_, ?_, ?_, ?_, ?_, ?_, ?_, ?_, ?_, ?_, ?_, ?_, ?_,
    ?_, lookupMsg_eraseKey f k em⟩ <;> rfl

/-- C2: each of the five handlers propagates an adapter error unchanged as
its own error result (first conjunct of each pair), and produces a 200 JSON
body exactly by wrapping a successful adapter result (the map equalities):
a handler never turns an adapter error into a success body. -/
theorem claim_C2 {ε : Type} (add_inv : Investment → Except ε Investment)
    (get_inv : String → Except ε Investment)
    (update_inv : Investment2 → Except ε Investment)
    (delete_inv : String → Except ε AffectedRows)
    (get_all_invs : Unit → Except ε (List Investment))
    (inv : Investment) (p : Investment2) (rid : String) :
    (∀ e, Api.create add_inv inv = Except.error e ↔ add_inv inv = Except.error e)
    ∧ (Api.create add_inv inv = (add_inv inv).map Json.mk)
    ∧ (∀ e, Api.get get_inv rid = Except.error e ↔ get_inv rid = Except.error e)
    ∧ (Api.get get_inv rid = (get_inv rid).map Json.mk)
    ∧ (∀ e, Api.update update_inv p = Except.error e ↔ update_inv p = Except.error e)
    ∧ (Api.update update_inv p = (update_inv p).map Json.mk)
    ∧ (∀ e, Api.delete delete_inv rid = Except.error e ↔ delete_inv rid = Except.error e)
    ∧ (Api.delete delete_inv rid = (delete_inv rid).map Json.mk)
    ∧ (∀ e, Api.list get_all_invs = Except.error e ↔ get_all_invs () = Except.error e)
    ∧ (Api.list get_all_invs = (get_all_invs ()).map Json.mk) := by
  refine ⟨?_, ?_, ?_, ?_, ?_, ?_, ?_, ?_, ?_, ?_⟩
  · intro e
    cases h : add_inv inv <;> simp [Api.create, h]
  · cases h : add_inv inv <;> simp [Api.create, h, Except.map]
  · intro e
    cases h : get_inv rid <;> simp [Api.get, h]
  · cases h : get_inv rid <;> simp [Api.get, h, Except.map]
  · intro e
    cases h : update_inv p <;> simp [Api.update, h]
  · cases h : update_inv p <;> simp [Api.update, h, Except.map]
  · intro e
    cases h : delete_inv rid <;> simp [Api.delete, h]
  · cases h : delete_inv rid <;> simp [Api.delete, h, Except.map]
  · intro e
    cases h : get_all_invs () <;> simp [Api.list, h]
  · cases h : get_all_invs () <;> simp [Api.list, h, Except.map]

/-- C8: the API surface exposes exactly the five routes of the spec's table
(method, path, request-body shape and response-body shape all match), and
each handler is one adapter call whose successful result is returned as the
JSON body, with no further logic. -/
theorem claim_C8 {ε : Type} (add_inv : Investment → Except ε Investment)
    (get_inv : String → Except ε Investment)
    (update_inv : Investment2 → Except ε Investment)
    (delete_inv : String → Except ε AffectedRows)
    (get_all_invs : Unit → Except ε (List Investment))
    (inv : Investment) (p : Investment2) (rid : String) :
    apiRoutes = specApiTable
    ∧ apiRoutes.length = 5
    ∧ (Api.create add_inv inv = (add_inv inv).map Json.mk)
    ∧ (Api.get get_inv rid = (get_inv rid).map Json.mk)
    ∧ (Api.update update_inv p = (update_inv p).map Json.mk)
    ∧ (Api.delete delete_inv rid = (delete_inv rid).map Json.mk)
    ∧ (Api.list get_all_invs = (get_all_invs ()).map Json.mk) := by
  refine ⟨rfl, rfl, ?_, ?_, ?_, ?_, ?_⟩
  · cases h : add_inv inv <;> simp [Api.create, h, Except.map]
  · cases h : get_inv rid <;> simp [Api.get, h, Except.map]
  · cases h : update_inv p <;> simp [Api.update, h, Except.map]
  · cases h : delete_inv rid <;> simp [Api.delete, h, Except.map]
  · cases h : get_all_invs () <;> simp [Api.list, h, Except.map]

/-- C9: a date-field input stores a timestamp exactly when the string
parses as a `%Y-%m-%d` date, the stored timestamp carries that date with
its time component fixed to 00:00:00 (UTC), and a non-parsing string
stores nothing. -/
theorem claim_C9 (s : String) :
    dateFieldDate s =
      (parse_from_str s).map (fun d => from_utc_datetime ⟨d, 0, 0, 0⟩)
    ∧ ((dateFieldDate s).isSome ↔ (parse_from_str s).isSome) := by
  have h1 : dateFieldDate s =
      (parse_from_str s).map (fun d => from_utc_datetime ⟨d, 0, 0, 0⟩) := by
    cases h : parse_from_str s <;>
      simp [dateFieldDate, h, and_hms_opt, from_utc_datetime]
  refine ⟨h1, ?_⟩
  rw [h1]
  cases parse_from_str s <;> simp

/-- C4 counterexample: the claim that every return-type option value of the
two forms is one of "Ordinary" and "Cumulative" is false: both forms offer
the value "Culmulative". -/
theorem claim_C4_counterexample :
    ¬ ((∀ v ∈ createReturnTypeOptions, v = "Ordinary" ∨ v = "Cumulative")
       ∧ (∀ v ∈ renewReturnTypeOptions, v = "Ordinary" ∨ v = "Cumulative")) := by
  decide

/-- C4 (amended): every value offered by the closed return-type choice set
is one of the two enumerated strings "Ordinary" and "Culmulative" (the
source's consistent spelling), in both the create form and the renew
form. -/
theorem claim_C4 :
    (∀ v ∈ createReturnTypeOptions, v = "Ordinary" ∨ v = "Culmulative")
    ∧ (∀ v ∈ renewReturnTypeOptions, v = "Ordinary" ∨ v = "Culmulative") := by
  decide

/-- Witness for C4: the second option of the create form is an element of
the choice set and satisfies the amended disjunction. -/
theorem claim_C4_witness :
    "Culmulative" ∈ createReturnTypeOptions
    ∧ ("Culmulative" = "Ordinary" ∨ "Culmulative" = "Culmulative") :=
  ⟨by decide, claim_C4.1 "Culmulative" (by decide)⟩

/-- C10: a numeric-field input that does not parse as a non-negative
integer is stored as 0, the same value an empty or zero entry stores, and a
record carrying such a field is then reported by validation with that
field's "can not be blank" message, in both forms. -/
theorem claim_C10 (s : String) (inv : Investment) (em : ErrorMap)
    (h : parseNonNegInt s = none) :
    storedNumericValue s = 0
    ∧ storedNumericValue s = storedNumericValue "0"
    ∧ storedNumericValue s = storedNumericValue ""
    ∧ lookupMsg (createValidateForm
        { inv with inv_amount := storedNumericValue s } em).2 "inv-amount" =
        some "Investment Amount can not be blank"
    ∧ lookupMsg (createValidateForm
        { inv with return_amount := storedNumericValue s } em).2 "return-amount" =
        some "Return Amount can not be blank"
    ∧ lookupMsg (createValidateForm
        { inv with return_rate := storedNumericValue s } em).2 "return-rate" =
        some "Return Rate can not be blank"
    ∧ lookupMsg (renewValidateForm
        { inv with inv_amount := storedNumericValue s } em).2 "inv-amount" =
        some "Investment Amount can not be blank"
    ∧ lookupMsg (renewValidateForm
        { inv with return_amount := storedNumericValue s } em).2 "return-amount" =
        some "Return Amount can not be blank"
    ∧ lookupMsg (renewValidateForm
        { inv with return_rate := storedNumericValue s } em).2 "return-rate" =
        some "Return Rate can not be blank" := by
  have h0 : storedNumericValue s = 0 := by simp [storedNumericValue, h]
  refine ⟨h0, by rw [h0]; decide, by rw [h0]; decide, ?_, ?_, ?_, ?_, ?_, ?_⟩ <;>
    simp [createValidateForm, renewValidateForm, lookupMsg_vstep, h0]

/-- Witness for C10: the input "12abc" fails to parse, is stored as 0, and
a blank record carrying it is reported with the blank-field messages. -/
theorem claim_C10_witness :
    parseNonNegInt "12abc" = none
    ∧ (storedNumericValue "12abc" = 0
       ∧ storedNumericValue "12abc" = storedNumericValue "0"
       ∧ storedNumericValue "12abc" = storedNumericValue ""
       ∧ lookupMsg (createValidateForm
           { blankInvestment with
              inv_amount := storedNumericValue "12abc" } []).2 "inv-amount" =
           some "Investment Amount can not be blank"
       ∧ lookupMsg (createValidateForm
           { blankInvestment with
              return_amount := storedNumericValue "12abc" } []).2 "return-amount" =
           some "Return Amount can not be blank"
       ∧ lookupMsg (createValidateForm
           { blankInvestment with
              return_rate := storedNumericValue "12abc" } []).2 "return-rate" =
           some "Return Rate can not be blank"
       ∧ lookupMsg (renewValidateForm
           { blankInvestment with
              inv_amount := storedNumericValue "12abc" } []).2 "inv-amount" =
           some "Investment Amount can not be blank"
       ∧ lookupMsg (renewValidateForm
           { blankInvestment with
              return_amount := storedNumericValue "12abc" } []).2 "return-amount" =
           some "Return Amount can not be blank"
       ∧ lookupMsg (renewValidateForm
           { blankInvestment with
              return_rate := storedNumericValue "12abc" } []).2 "return-rate" =
           some "Return Rate can not be blank") :=
  ⟨by decide, claim_C10 "12abc" blankInvestment [] (by decide)⟩
